import Mathlib

/-!
Verification of the query and filter engine of the database-alchemy
repository (src/database_alchemy/db_query.py, src/database_alchemy/db_create.py).

The embedding is shallow: Python dict rows become association lists from
column name to a cell value; a pandas data frame becomes a list of columns
together with the list of rows; a SQLAlchemy session becomes an in-memory
database holding the sample and result tables; the Result ⋈ Sample join is
the list-level inner join on the sample_id foreign key; fallible pandas
column lookups are modelled with Except (a KeyError on a column absent
from the frame).
-/

/-- A cell value: Python strings, numbers (int and float unified, as Python
number equality is numeric across the two), and datetime.date values
(compared lexicographically by year, month, day, as Python does). -/
inductive Value where
  | str (s : String)
  | num (q : ℚ)
  | date (y m d : Nat)
deriving DecidableEq, Repr

/-- Python equality `==` between two cell values: numbers compare
numerically, strings and dates compare componentwise, values of different
kinds are unequal. -/
def Value.beq : Value → Value → Bool
  | .str a, .str b => a == b
  | .num a, .num b => a == b
  | .date y1 m1 d1, .date y2 m2 d2 => y1 == y2 && m1 == m2 && d1 == d2
  | _, _ => false

/-- Python strict order `<` between two cell values of the same kind
(dates lexicographically by year, month, day); comparisons across kinds
(and against a missing value, handled at the call site) yield false, the
way pandas treats NaN in a comparison. -/
def Value.lt : Value → Value → Bool
  | .str a, .str b => decide (a < b)
  | .num a, .num b => decide (a < b)
  | .date y1 m1 d1, .date y2 m2 d2 =>
      (y1 < y2 || (y1 == y2 && (m1 < m2 || (m1 == m2 && d1 < d2))))
  | _, _ => false

/-- Python truthiness of a cell value: the empty string and the number 0
are falsy, every date is truthy. -/
def Value.truthy : Value → Bool
  | .str s => !(s == "")
  | .num q => !(q == 0)
  | .date _ _ _ => true

/-- Python truthiness of an optional value: None is falsy. -/
def truthyOpt : Option Value → Bool
  | Option.none => false
  | Option.some v => v.truthy

/-- One flattened row: an ordered mapping from column name to value
(a Python OrderedDict). -/
abbrev Row := List (String × Value)

/-- Whether a row has an entry for the given key. -/
def rowHasKey (r : Row) (k : String) : Bool := r.any (fun kv => kv.1 == k)

/-- A samples-table record (db_create.py, class Sample): primary key,
name, optional type and description, and the analysis_id foreign key. -/
structure Sample where
  sample_id : Int
  sample_name : String
  sample_type : Option String
  sample_description : Option String
  analysis_id : Int
deriving DecidableEq, Repr

/-- A results-table record (db_create.py, class Result): primary key, the
sample_id foreign key, and the open-ended JSONB metrics document, modelled
as an ordered key-value list. -/
structure Result where
  result_id : Int
  sample_id : Int
  metrics : List (String × Value)
deriving DecidableEq, Repr

/-- The queried database state: the samples and results tables. -/
structure Database where
  samples : List Sample
  results : List Result
deriving Repr

/-- The join session.query(Result, Sample).join(Sample): every
(Result, Sample) pair related by the sample_id foreign key. -/
def join_result_sample (db : Database) : List (Result × Sample) :=
  db.results.flatMap (fun r =>
    (db.samples.filter (fun s => s.sample_id == r.sample_id)).map (fun s => (r, s)))

/-- Python dict assignment row[k] = v on an OrderedDict: overwrite in
place when the key is present, append otherwise. -/
def dict_insert (row : Row) (k : String) (v : Value) : Row :=
  if row.any (fun kv => kv.1 == k) then
    row.map (fun kv => if kv.1 == k then (k, v) else kv)
  else
    row ++ [(k, v)]

/-- Python row.update(m.items()): insert every key-value pair of m in
order. -/
def dict_update (row : Row) (m : List (String × Value)) : Row :=
  m.foldl (fun r kv => dict_insert r kv.1 kv.2) row

/-- The row built for one joined (Result, Sample) pair inside
return_dataframe: sample_name and analysis_id first, then every metrics
entry spread into its own column. -/
def flatten_pair (result : Result) (sample : Sample) : Row :=
  dict_update
    [("sample_name", Value.str sample.sample_name),
     ("analysis_id", Value.num (sample.analysis_id : ℚ))]
    result.metrics

/-- A pandas data frame: the ordered column list and the rows; a row
lacking a column holds a missing value (NaN), modelled by lookup
returning none. -/
structure DataFrame where
  columns : List String
  rows : List Row
deriving DecidableEq, Repr

/-- Collect the keys of one row into the running column list, in first
encounter order (what pd.DataFrame does over a list of dicts). -/
def add_keys (cols : List String) (r : Row) : List String :=
  r.foldl (fun cs kv => if cs.contains kv.1 then cs else cs ++ [kv.1]) cols

/-- The column set of a list of rows: the union, in first-encounter
order, of the keys of every row. -/
def df_columns (rows : List Row) : List String := rows.foldl add_keys []

/-- pd.DataFrame(rows): a frame whose columns are the union of the row
keys. -/
def mk_dataframe (rows : List Row) : DataFrame := ⟨df_columns rows, rows⟩

/-- db_query.return_dataframe: one flattened row per joined
(Result, Sample) pair, gathered into a data frame. -/
def return_dataframe (query : List (Result × Sample)) : DataFrame :=
  mk_dataframe (query.map (fun p => flatten_pair p.1 p.2))

/-- One applied (truthy) filter from db_query.filter_dataframe:
date_after keeps rows whose date column is strictly greater than the
value, date_before keeps rows whose date column is strictly less, any
other name keeps rows whose column of that name equals the value; a
column absent from the frame raises KeyError (pandas df[name]). -/
def filter_step (df : DataFrame) (column_name : String) (value : Value) :
    Except String DataFrame :=
  if column_name == "date_after" then
    if df.columns.contains "date" then
      Except.ok ⟨df.columns, df.rows.filter (fun r =>
        match List.lookup "date" r with
        | Option.some c => Value.lt value c
        | Option.none => false)⟩
    else Except.error "KeyError: date"
  else if column_name == "date_before" then
    if df.columns.contains "date" then
      Except.ok ⟨df.columns, df.rows.filter (fun r =>
        match List.lookup "date" r with
        | Option.some c => Value.lt c value
        | Option.none => false)⟩
    else Except.error "KeyError: date"
  else
    if df.columns.contains column_name then
      Except.ok ⟨df.columns, df.rows.filter (fun r =>
        match List.lookup column_name r with
        | Option.some c => Value.beq c value
        | Option.none => false)⟩
    else Except.error ("KeyError: " ++ column_name)

/-- db_query.filter_dataframe: walk the filter mapping in order, skip
entries with a falsy value, apply the rest in sequence; a lookup failure
aborts the whole call. -/
def filter_dataframe (df : DataFrame) (filter_kwargs : List (String × Option Value)) :
    Except String DataFrame :=
  match filter_kwargs with
  | [] => Except.ok df
  | (column_name, value) :: rest =>
    match value with
    | Option.none => filter_dataframe df rest
    | Option.some v =>
      if v.truthy then
        match filter_step df column_name v with
        | Except.ok df2 => filter_dataframe df2 rest
        | Except.error e => Except.error e
      else
        filter_dataframe df rest

/-- The analysis_id argument of get_results_by_analysis: None, a single
int, or a list of ints (Union[int, List[int]]). -/
inductive IntArg where
  | none
  | int (n : Int)
  | list (l : List Int)
deriving Repr

/-- The sample_name argument of get_results_by_sample: None, a single
string, or a list of strings (Union[str, List[str]]). -/
inductive StrArg where
  | none
  | str (s : String)
  | list (l : List String)
deriving Repr

/-- db_query.get_results_by_analysis: join Result to Sample, then — only
when the argument is truthy — restrict by membership (list argument) or
equality (single argument) on Sample.analysis_id, and flatten. -/
def get_results_by_analysis (db : Database) (analysis_id : IntArg) : DataFrame :=
  let query := join_result_sample db
  let query2 :=
    match analysis_id with
    | IntArg.list l =>
        if l.isEmpty then query
        else query.filter (fun p => l.contains p.2.analysis_id)
    | IntArg.int n =>
        if n == 0 then query
        else query.filter (fun p => p.2.analysis_id == n)
    | IntArg.none => query
  return_dataframe query2

/-- db_query.get_results_by_sample: join Result to Sample, then — only
when the argument is truthy — restrict by membership (list argument) or
equality (single argument) on Sample.sample_name, and flatten. -/
def get_results_by_sample (db : Database) (sample_name : StrArg) : DataFrame :=
  let query := join_result_sample db
  let query2 :=
    match sample_name with
    | StrArg.list l =>
        if l.isEmpty then query
        else query.filter (fun p => l.contains p.2.sample_name)
    | StrArg.str s =>
        if s == "" then query
        else query.filter (fun p => p.2.sample_name == s)
    | StrArg.none => query
  return_dataframe query2

/-- The parameter names bound by the click option declarations on the
display_analyses command (db_query.py lines 158-166): click turns
--date-after, --date-before, --department, --analyst-name into these
keyword arguments. -/
def displayAnalysesOptionParams : List String :=
  ["date_after", "date_before", "department", "analyst_name"]

/-- The parameters of the display_analyses handler itself
(db_query.py line 168), the click context aside. -/
def displayAnalysesHandlerParams : List String :=
  ["date_after", "date_before", "department", "analyst"]

/-- Click invokes a command handler by passing one keyword argument per
declared option; the call binds only when the declared option parameters
and the handler parameters coincide as sets (an unexpected keyword or a
missing required parameter is a TypeError). -/
def clickBindingOk (declared handler : List String) : Bool :=
  declared.all (fun p => handler.contains p) && handler.all (fun p => declared.contains p)

/-- The spec-side predicate for one applied filter entry: date_after
keeps a row when its date cell is strictly greater than the value,
date_before when it is strictly less, any other key when the cell of
that column equals the value; a missing cell never matches. -/
def filter_pred (column_name : String) (value : Value) (r : Row) : Bool :=
  if column_name == "date_after" then
    match List.lookup "date" r with
    | Option.some c => Value.lt value c
    | Option.none => false
  else if column_name == "date_before" then
    match List.lookup "date" r with
    | Option.some c => Value.lt c value
    | Option.none => false
  else
    match List.lookup column_name r with
    | Option.some c => Value.beq c value
    | Option.none => false

/-- One filter entry, as the spec reads it: an entry with a falsy value
places no constraint on a row, a truthy one constrains it by
filter_pred. -/
def skip_or_match (kv : String × Option Value) (r : Row) : Bool :=
  match kv.2 with
  | Option.none => true
  | Option.some v => !v.truthy || filter_pred kv.1 v r

/-- A row satisfies a whole filter mapping: the conjunction of its
entries. -/
def matches_all (fs : List (String × Option Value)) (r : Row) : Bool :=
  fs.all (fun kv => skip_or_match kv r)

/-- A one-sample, one-result database used for concrete evaluations. -/
def dbOne : Database :=
  ⟨[⟨1, "S01", Option.none, Option.none, 1⟩],
   [⟨1, 1, [("ph", Value.num 7)]⟩]⟩

/-- The spec example table: two rows dated 2019-12-31 and 2020-06-01. -/
def dfDates : DataFrame :=
  ⟨["date"],
   [[("date", Value.date 2019 12 31)], [("date", Value.date 2020 6 1)]]⟩

/-- What the spec example keeps: only the 2020-06-01 row. -/
def dfDatesAfter : DataFrame :=
  ⟨["date"], [[("date", Value.date 2020 6 1)]]⟩

/-- A result whose metrics document has only a temp key. -/
def rHet1 : Result := ⟨1, 1, [("temp", Value.num 37.2)]⟩

/-- A result whose metrics document has only a ph key. -/
def rHet2 : Result := ⟨2, 1, [("ph", Value.num 7)]⟩

/-- The sample owning the two heterogeneous results. -/
def sHet : Sample := ⟨1, "S01", Option.none, Option.none, 1⟩

/-- A joined query whose two rows carry different metrics key sets. -/
def qHet : List (Result × Sample) := [(rHet1, sHet), (rHet2, sHet)]

theorem filter_step_ok (df d2 : DataFrame) (k : String) (v : Value)
    (h : filter_step df k v = Except.ok d2) :
    d2.columns = df.columns ∧ d2.rows = df.rows.filter (filter_pred k v) := by
  unfold filter_step at h
  unfold filter_pred
  split at h <;> [skip; split at h] <;> split at h <;> simp_all <;>
    (subst h; exact ⟨rfl, rfl⟩)

/-- Claim C2: filter_dataframe keeps, for date_after, only rows whose
date column is strictly greater than the value; for date_before, only
rows strictly less; for any other key, only rows whose column of that
name equals the value; successive entries compose conjunctively — the
surviving rows are exactly the rows of the input satisfying every
applied entry. -/
theorem filter_dataframe_keeps_exactly_matching (df d2 : DataFrame)
    (fs : List (String × Option Value))
    (h : filter_dataframe df fs = Except.ok d2) :
    d2.rows = df.rows.filter (matches_all fs) := by
  induction fs generalizing df with
  | nil =>
    rw [show filter_dataframe df [] = Except.ok df from rfl] at h
    injection h with h
    subst h
    exact (List.filter_eq_self.mpr (fun a _ => rfl)).symm
  | cons kv rest ih =>
    obtain ⟨k, v⟩ := kv
    match v with
    | Option.none =>
      rw [show filter_dataframe df ((k, Option.none) :: rest) =
            filter_dataframe df rest from rfl] at h
      rw [ih df h]
      apply List.filter_congr
      intro r _
      simp [matches_all, skip_or_match]
    | Option.some w =>
      rw [show filter_dataframe df ((k, Option.some w) :: rest) =
            (if w.truthy then
              match filter_step df k w with
              | Except.ok df2 => filter_dataframe df2 rest
              | Except.error e => Except.error e
             else filter_dataframe df rest) from rfl] at h
      by_cases hw : w.truthy = true
      · rw [if_pos hw] at h
        cases hstep : filter_step df k w with
        | error e => rw [hstep] at h; cases h
        | ok df2 =>
          rw [hstep] at h
          obtain ⟨-, hrows⟩ := filter_step_ok df df2 k w hstep
          rw [ih df2 h, hrows, List.filter_filter]
          apply List.filter_congr
          intro r _
          simp [matches_all, skip_or_match, hw, Bool.and_comm]
      · rw [if_neg hw] at h
        rw [ih df h]
        apply List.filter_congr
        intro r _
        simp only [Bool.not_eq_true] at hw
        simp [matches_all, skip_or_match, hw]

theorem filter_dataframe_skip (df : DataFrame) (k : String) (v : Option Value)
    (fs : List (String × Option Value)) (hv : truthyOpt v = false) :
    filter_dataframe df ((k, v) :: fs) = filter_dataframe df fs := by
  match v with
  | Option.none => rfl
  | Option.some w =>
    have hw : w.truthy = false := hv
    rw [show filter_dataframe df ((k, Option.some w) :: fs) =
          (if w.truthy then
            match filter_step df k w with
            | Except.ok df2 => filter_dataframe df2 fs
            | Except.error e => Except.error e
           else filter_dataframe df fs) from rfl,
        if_neg (by simp [hw])]

/-- Claim C5: a filter entry whose value is falsy is skipped, so a
filter mapping all of whose values are falsy leaves the data frame
unchanged — filtering acts as the identity. -/
theorem falsy_filter_mapping_is_identity :
    (∀ (df : DataFrame) (k : String) (v : Option Value)
        (fs : List (String × Option Value)),
        truthyOpt v = false →
        filter_dataframe df ((k, v) :: fs) = filter_dataframe df fs) ∧
    (∀ (df : DataFrame) (fs : List (String × Option Value)),
        (∀ kv ∈ fs, truthyOpt kv.2 = false) →
        filter_dataframe df fs = Except.ok df) := by
  refine ⟨filter_dataframe_skip, ?_⟩
  intro df fs hall
  induction fs with
  | nil => rfl
  | cons kv rest ih =>
    obtain ⟨k, v⟩ := kv
    rw [filter_dataframe_skip df k v rest (hall (k, v) (List.mem_cons_self _ _))]
    exact ih (fun kv2 h2 => hall kv2 (List.mem_cons_of_mem _ h2))

/-- Claim C8: a filter mapping holding a truthy entry whose key, not one
of the two date keys, names a column absent from the data frame makes
filter_dataframe fail with a lookup error rather than return a frame. -/
theorem filter_dataframe_missing_column_fails (df : DataFrame)
    (fs : List (String × Option Value)) (k : String) (v : Value)
    (hmem : (k, Option.some v) ∈ fs) (ht : v.truthy = true)
    (h1 : k ≠ "date_after") (h2 : k ≠ "date_before")
    (hc : df.columns.contains k = false) :
    ∃ e, filter_dataframe df fs = Except.error e := by
  revert hmem hc
  induction fs generalizing df with
  | nil =>
    intro hmem _
    cases hmem
  | cons kv rest ih =>
    intro hmem hc
    obtain ⟨k2, v2⟩ := kv
    rcases List.mem_cons.mp hmem with heq | hmem2
    · injection heq with hk hv
      subst hk
      subst hv
      have hstep : filter_step df k v = Except.error ("KeyError: " ++ k) := by
        unfold filter_step
        rw [if_neg (by simp [h1]), if_neg (by simp [h2]), if_neg (by rw [hc]; decide)]
      refine ⟨"KeyError: " ++ k, ?_⟩
      rw [show filter_dataframe df ((k, Option.some v) :: rest) =
            (if v.truthy then
              match filter_step df k v with
              | Except.ok df2 => filter_dataframe df2 rest
              | Except.error e => Except.error e
             else filter_dataframe df rest) from rfl,
          if_pos ht, hstep]
    · match v2 with
      | Option.none =>
        rw [filter_dataframe_skip df k2 Option.none rest rfl]
        exact ih df hmem2 hc
      | Option.some w =>
        by_cases hw : w.truthy = true
        · rw [show filter_dataframe df ((k2, Option.some w) :: rest) =
                (if w.truthy then
                  match filter_step df k2 w with
                  | Except.ok df2 => filter_dataframe df2 rest
                  | Except.error e => Except.error e
                 else filter_dataframe df rest) from rfl,
              if_pos hw]
          cases hstep : filter_step df k2 w with
          | error e =>
            exact ⟨e, rfl⟩
          | ok df2 =>
            obtain ⟨hcols, -⟩ := filter_step_ok df df2 k2 w hstep
            exact ih df2 hmem2 (by rw [hcols]; exact hc)
        · rw [filter_dataframe_skip df k2 (Option.some w) rest (by simpa using hw)]
          exact ih df hmem2 hc

theorem any_key_map_insert (r : Row) (k0 k : String) (v : Value) :
    (r.map (fun kv => if kv.1 == k0 then (k0, v) else kv)).any
        (fun kv => kv.1 == k) =
      r.any (fun kv => kv.1 == k) := by
  induction r with
  | nil => rfl
  | cons kv r ih =>
    simp only [List.map_cons, List.any_cons, ih]
    by_cases h : kv.1 == k0
    · have hk : kv.1 = k0 := by simpa using h
      rw [if_pos h]
      rw [← hk]
    · rw [if_neg h]

theorem rowHasKey_dict_insert (r : Row) (k0 k : String) (v : Value) :
    rowHasKey (dict_insert r k0 v) k = (rowHasKey r k || (k0 == k)) := by
  unfold dict_insert rowHasKey
  by_cases h : r.any (fun kv => kv.1 == k0)
  · rw [if_pos h, any_key_map_insert]
    by_cases hk : k0 = k
    · subst hk
      rw [h]
      simp
    · have : (k0 == k) = false := by simpa using hk
      rw [this]
      simp
  · rw [if_neg h]
    simp

theorem rowHasKey_dict_update (r : Row) (m : List (String × Value)) (k : String) :
    rowHasKey (dict_update r m) k =
      (rowHasKey r k || m.any (fun kv => kv.1 == k)) := by
  induction m generalizing r with
  | nil => simp [dict_update]
  | cons kv m ih =>
    rw [show dict_update r (kv :: m) = dict_update (dict_insert r kv.1 kv.2) m from rfl,
        ih, rowHasKey_dict_insert]
    simp [Bool.or_assoc]

theorem mem_add_keys (r : Row) (cols : List String) (k : String) :
    k ∈ add_keys cols r ↔ k ∈ cols ∨ rowHasKey r k = true := by
  induction r generalizing cols with
  | nil => simp [add_keys, rowHasKey]
  | cons kv r ih =>
    rw [show add_keys cols (kv :: r) =
          add_keys (if cols.contains kv.1 then cols else cols ++ [kv.1]) r from rfl,
        ih]
    by_cases h : cols.contains kv.1
    · rw [if_pos h]
      have hmem : kv.1 ∈ cols := by simpa using h
      constructor
      · rintro (hk | hk)
        · exact Or.inl hk
        · exact Or.inr (by simp [rowHasKey, List.any_cons]; simp [rowHasKey] at hk; tauto)
      · rintro (hk | hk)
        · exact Or.inl hk
        · simp [rowHasKey, List.any_cons] at hk
          rcases hk with hk | hk
          · exact Or.inl (by rw [← hk]; exact hmem)
          · exact Or.inr (by simpa [rowHasKey] using hk)
    · rw [if_neg h]
      rw [show rowHasKey (kv :: r) k = (kv.1 == k || rowHasKey r k) from rfl]
      constructor
      · rintro (hk | hk)
        · rcases List.mem_append.mp hk with hc | hc
          · exact Or.inl hc
          · have he : k = kv.1 := by simpa using hc
            exact Or.inr (by simp [he])
        · exact Or.inr (by simp [hk])
      · rintro (hk | hk)
        · exact Or.inl (List.mem_append_left _ hk)
        · rcases (by simpa using hk : kv.1 = k ∨ rowHasKey r k = true) with h1 | h1
          · exact Or.inl (List.mem_append_right _ (by simp [h1]))
          · exact Or.inr h1

theorem mem_foldl_add_keys (rows : List Row) (cols : List String) (k : String) :
    k ∈ rows.foldl add_keys cols ↔ k ∈ cols ∨ ∃ r ∈ rows, rowHasKey r k = true := by
  induction rows generalizing cols with
  | nil => simp
  | cons r rows ih =>
    rw [List.foldl_cons, ih, mem_add_keys]
    simp only [List.mem_cons]
    constructor
    · rintro ((hk | hk) | ⟨r2, hr2, hk⟩)
      · exact Or.inl hk
      · exact Or.inr ⟨r, Or.inl rfl, hk⟩
      · exact Or.inr ⟨r2, Or.inr hr2, hk⟩
    · rintro (hk | ⟨r2, hr2 | hr2, hk⟩)
      · exact Or.inl (Or.inl hk)
      · exact Or.inl (Or.inr (hr2 ▸ hk))
      · exact Or.inr ⟨r2, hr2, hk⟩

theorem mem_df_columns (rows : List Row) (k : String) :
    k ∈ df_columns rows ↔ ∃ r ∈ rows, rowHasKey r k = true := by
  rw [show df_columns rows = rows.foldl add_keys [] from rfl, mem_foldl_add_keys]
  simp

theorem lookup_none_of_no_key (r : Row) (k : String)
    (h : rowHasKey r k = false) : List.lookup k r = Option.none := by
  induction r with
  | nil => rfl
  | cons kv r ih =>
    obtain ⟨k1, v1⟩ := kv
    have h2 : (k1 == k) = false ∧ rowHasKey r k = false := by
      simpa [rowHasKey, List.any_cons] using h
    rw [List.lookup_cons]
    have hk : (k == k1) = false := by
      have h1 := h2.1
      simp only [beq_eq_false_iff_ne] at h1 ⊢
      exact fun he => h1 he.symm
    rw [hk]
    exact ih h2.2

/-- Claim C3: flattening the single joined pair whose Result carries
metrics temp 37.2 and ph 7.1 and whose Sample is named S01 under
analysis 1 produces exactly the one row with sample_name S01,
analysis_id 1, temp 37.2 and ph 7.1; in general every joined pair
yields one row holding sample_name, analysis_id and one column per
metrics key. -/
theorem return_dataframe_flattens_each_pair :
    return_dataframe
        [(⟨1, 1, [("temp", Value.num 37.2), ("ph", Value.num 7.1)]⟩,
          ⟨1, "S01", Option.none, Option.none, 1⟩)] =
      ⟨["sample_name", "analysis_id", "temp", "ph"],
       [[("sample_name", Value.str "S01"), ("analysis_id", Value.num 1),
         ("temp", Value.num 37.2), ("ph", Value.num 7.1)]]⟩ ∧
    (∀ query : List (Result × Sample),
        (return_dataframe query).rows =
          query.map (fun p => flatten_pair p.1 p.2)) ∧
    (∀ (res : Result) (s : Sample),
        rowHasKey (flatten_pair res s) "sample_name" = true ∧
        rowHasKey (flatten_pair res s) "analysis_id" = true ∧
        ∀ kv ∈ res.metrics, rowHasKey (flatten_pair res s) kv.1 = true) := by
  refine ⟨rfl, fun query => rfl, fun res s => ⟨?_, ?_, ?_⟩⟩
  · unfold flatten_pair
    rw [rowHasKey_dict_update]
    simp [rowHasKey]
  · unfold flatten_pair
    rw [rowHasKey_dict_update]
    simp [rowHasKey]
  · intro kv hkv
    unfold flatten_pair
    rw [rowHasKey_dict_update]
    have hany : res.metrics.any (fun kv2 => kv2.1 == kv.1) = true :=
      List.any_eq_true.mpr ⟨kv, hkv, by simp⟩
    rw [hany]
    simp

theorem return_dataframe_flattens_each_pair_witness :
    rowHasKey (flatten_pair rHet1 sHet) "temp" = true :=
  (return_dataframe_flattens_each_pair.2.2 rHet1 sHet).2.2
    ("temp", Value.num 37.2) (List.mem_cons_self _ _)

/-- Claim C7: flattening any collection of joined pairs with
heterogeneous metrics key sets succeeds with one row per pair, the
column set of the frame is the union of the keys encountered across the
rows, and a row lacking a key has a missing value in that column. -/
theorem return_dataframe_heterogeneous_metrics (query : List (Result × Sample)) :
    (return_dataframe query).rows.length = query.length ∧
    (∀ k, k ∈ (return_dataframe query).columns ↔
        ∃ r ∈ (return_dataframe query).rows, rowHasKey r k = true) ∧
    (∀ r ∈ (return_dataframe query).rows, ∀ k, rowHasKey r k = false →
        List.lookup k r = Option.none) := by
  refine ⟨by simp [return_dataframe, mk_dataframe], fun k => ?_,
    fun r _ k hk => lookup_none_of_no_key r k hk⟩
  exact mem_df_columns _ k

theorem return_dataframe_heterogeneous_metrics_witness :
    "ph" ∈ (return_dataframe qHet).columns ∧
    List.lookup "ph" (flatten_pair rHet1 sHet) = Option.none :=
  ⟨((return_dataframe_heterogeneous_metrics qHet).2.1 "ph").mpr
      ⟨flatten_pair rHet2 sHet,
       List.mem_cons_of_mem _ (List.mem_cons_self _ _), by decide⟩,
   (return_dataframe_heterogeneous_metrics qHet).2.2
      (flatten_pair rHet1 sHet) (List.mem_cons_self _ _) "ph" (by decide)⟩

/-- Claim C1: querying results-by-analysis with the singleton identifier
set holding A returns exactly the flattened joined (Result, Sample)
rows whose sample's analysis id equals A, and no others. -/
theorem get_results_by_analysis_singleton (db : Database) (A : Int) :
    get_results_by_analysis db (IntArg.list [A]) =
      return_dataframe ((join_result_sample db).filter
        (fun p => decide (p.2.analysis_id = A))) := by
  rw [show get_results_by_analysis db (IntArg.list [A]) =
        return_dataframe ((join_result_sample db).filter
          (fun p => [A].contains p.2.analysis_id)) from rfl]
  congr 1
  apply List.filter_congr
  intro p _
  by_cases hx : p.2.analysis_id = A
  · simp [hx, List.contains_eq_any_beq]
  · simp [hx, List.contains_eq_any_beq]

/-- Claim C4 counterexample: querying results-by-sample with the empty
set of names returns every joined row, not the empty union over the
names. -/
theorem get_results_by_sample_empty_set_cex :
    get_results_by_sample dbOne (StrArg.list []) ≠
      return_dataframe ((join_result_sample dbOne).filter
        (fun p => decide (∃ n ∈ ([] : List String), p.2.sample_name = n))) := by
  decide

/-- Claim C4, amended to nonempty name sets: for every nonempty list S
of sample names, results-by-sample returns exactly the flattened union
over the names n in S of the joined rows whose sample name equals n,
with no duplicates beyond those of the join. -/
theorem get_results_by_sample_union (db : Database) (S : List String)
    (h : S ≠ []) :
    get_results_by_sample db (StrArg.list S) =
      return_dataframe ((join_result_sample db).filter
        (fun p => decide (∃ n ∈ S, p.2.sample_name = n))) := by
  have hne : S.isEmpty = false := by simpa using h
  rw [show get_results_by_sample db (StrArg.list S) =
        return_dataframe (if S.isEmpty = true then join_result_sample db
          else (join_result_sample db).filter
            (fun p => S.contains p.2.sample_name)) from rfl,
      if_neg (by simp [hne])]
  congr 1
  apply List.filter_congr
  intro p _
  by_cases hx : p.2.sample_name ∈ S
  · have h1 : S.contains p.2.sample_name = true := List.elem_eq_true_of_mem hx
    have h2 : decide (∃ n ∈ S, p.2.sample_name = n) = true := by
      simp only [decide_eq_true_eq]
      exact ⟨p.2.sample_name, hx, rfl⟩
    rw [h1, h2]
  · have h1 : S.contains p.2.sample_name = false := by
      cases hb : S.contains p.2.sample_name
      · rfl
      · exact absurd (List.elem_iff.mp hb) hx
    have h2 : decide (∃ n ∈ S, p.2.sample_name = n) = false := by
      simp only [decide_eq_false_iff_not]
      rintro ⟨n, hn, he⟩
      exact hx (he ▸ hn)
    rw [h1, h2]

theorem get_results_by_sample_union_witness :
    get_results_by_sample dbOne (StrArg.list ["S01"]) =
      return_dataframe ((join_result_sample dbOne).filter
        (fun p => decide (∃ n ∈ ["S01"], p.2.sample_name = n))) :=
  get_results_by_sample_union dbOne ["S01"] (by decide)

/-- Claim C6: with no identifier filter supplied (None) results-by-analysis
returns every joined Result ⋈ Sample row, flattened, unrestricted. -/
theorem get_results_by_analysis_no_filter (db : Database) :
    get_results_by_analysis db IntArg.none =
      return_dataframe (join_result_sample db) := rfl

/-- Claim C10: a falsy filter argument that is not None — the empty
identifier list, the identifier 0, the empty name list or the empty
name string — is treated the same as supplying no filter: every joined
row is returned. -/
theorem falsy_filter_args_return_all (db : Database) :
    get_results_by_analysis db (IntArg.list []) =
      get_results_by_analysis db IntArg.none ∧
    get_results_by_analysis db (IntArg.int 0) =
      get_results_by_analysis db IntArg.none ∧
    get_results_by_sample db (StrArg.list []) =
      get_results_by_sample db StrArg.none ∧
    get_results_by_sample db (StrArg.str "") =
      get_results_by_sample db StrArg.none :=
  ⟨rfl, rfl, rfl, rfl⟩

/-- Claim C9: the display_analyses handler takes a parameter named
analyst that no declared option binds — the options declare
analyst_name instead — so the declared options and the handler
parameters disagree and click cannot invoke the handler with the
documented options. -/
theorem display_analyses_param_mismatch :
    displayAnalysesHandlerParams.contains "analyst" = true ∧
    displayAnalysesOptionParams.contains "analyst" = false ∧
    displayAnalysesOptionParams.contains "analyst_name" = true ∧
    clickBindingOk displayAnalysesOptionParams displayAnalysesHandlerParams
      = false := by
  decide

theorem filter_dataframe_keeps_exactly_matching_witness :
    dfDatesAfter.rows =
      dfDates.rows.filter
        (matches_all [("date_after", Option.some (Value.date 2020 1 1))]) :=
  filter_dataframe_keeps_exactly_matching dfDates dfDatesAfter
    [("date_after", Option.some (Value.date 2020 1 1))] rfl

theorem falsy_filter_mapping_is_identity_witness :
    filter_dataframe dfDates
        [("department", Option.none), ("analyst", Option.some (Value.str ""))] =
      Except.ok dfDates :=
  falsy_filter_mapping_is_identity.2 dfDates
    [("department", Option.none), ("analyst", Option.some (Value.str ""))]
    (by decide)

theorem filter_dataframe_missing_column_fails_witness :
    ∃ e, filter_dataframe dfDates
        [("department", Option.some (Value.str "QC"))] = Except.error e :=
  filter_dataframe_missing_column_fails dfDates
    [("department", Option.some (Value.str "QC"))] "department"
    (Value.str "QC") (by decide) (by decide) (by decide) (by decide) (by decide)
